/-
Verification of the GeoPulse scoring/orchestration code.

Shallow embedding of the Python sources:
  app.py                  -- pipeline orchestrator (run_pipeline_background, /run
                             route guard, load_sites) and its on-disk outputs
  scripts/scoring.py      -- signal sources (get_lst_score, get_grid_proximity_score,
                             get_svi_score), normalization, compute_final_score
  scripts/lst_analysis.py -- compute_emissivity

Numeric values are modelled as exact rationals.  Earth Engine image operations
are pointwise on rasters, so a region-clipped image is modelled as the list of
its pixel values; Earth Engine's divide returns 0 on division by zero, which
coincides with Rat division.  The process file system is modelled by the three
output records the orchestrator reads or writes.
-/
import Mathlib

namespace GeoPulse

/-- Run parameters, mirroring the keys of DEFAULT_PARAMS in app.py. -/
structure Params where
  start_date : String
  end_date : String
  cloud_cover : Int
  weight_lst : ℚ
  weight_grid : ℚ
  weight_svi : ℚ
  num_sites : Nat
  percentile : Int
  region : String
  custom_lat_min : ℚ
  custom_lat_max : ℚ
  custom_lon_min : ℚ
  custom_lon_max : ℚ
  hm_radius : Int
  hm_blur : Int
  hm_opacity : ℚ
  min_gps_score : Int
  county_beaver : Bool
  county_millard : Bool
  county_saltlake : Bool
  lst_min : ℚ
  lst_max : ℚ
deriving DecidableEq, Repr

/-- DEFAULT_PARAMS of app.py. -/
def DEFAULT_PARAMS : Params where
  start_date := "2023-05-01"
  end_date := "2024-09-30"
  cloud_cover := 20
  weight_lst := 5/10
  weight_grid := 3/10
  weight_svi := 2/10
  num_sites := 10
  percentile := 70
  region := "southern_utah"
  custom_lat_min := 37
  custom_lat_max := 42
  custom_lon_min := -114
  custom_lon_max := -109
  hm_radius := 25
  hm_blur := 15
  hm_opacity := 3/10
  min_gps_score := 0
  county_beaver := true
  county_millard := true
  county_saltlake := true
  lst_min := 20
  lst_max := 60

/-- The shared `pipeline` dict of app.py.  Status is the literal string the code
stores ("idle" / "running" / "done" / "error"). -/
structure Pipeline where
  status : String
  step : String
  lastRun : Option String
  error : Option String
  progress : Nat
  params : Params
  hasRun : Bool
deriving DecidableEq, Repr

/-- The initial `pipeline` dict of app.py. -/
def initialPipeline : Pipeline where
  status := "idle"
  step := ""
  lastRun := none
  error := none
  progress := 0
  params := DEFAULT_PARAMS
  hasRun := false

/-- The slice of the file system the orchestrator reads and writes:
whether outputs/scored_sites.geojson and outputs/sweet_spot_map.html exist,
and the content of outputs/last_run_params.json (none when absent). -/
structure FS where
  scoredSitesGeojson : Bool
  sweetSpotMap : Bool
  lastRunParams : Option Params
deriving DecidableEq, Repr

/-- Outcome of one subprocess step: exit code 0, or a failure whose detail
string is the captured stderr/stdout raised as RuntimeError in app.py. -/
inductive StepResult where
  | ok
  | fail (detail : String)
deriving DecidableEq, Repr

/-- One entry of the `steps` list in run_pipeline_background. -/
structure Step where
  name : String
  script : String
  progress : Nat
deriving DecidableEq, Repr

/-- The `steps` list of run_pipeline_background (app.py lines 142-153). -/
def steps : List Step :=
  [ { name := "Fetching satellite data & scoring sites"
    , script := "scoring.py"
    , progress := 60 }
  , { name := "Generating interactive map"
    , script := "visualize.py"
    , progress := 100 } ]

/-- File-system effect of a step's script when it exits successfully:
scoring.py writes outputs/scored_sites.geojson as its last action, and
visualize.py saves outputs/sweet_spot_map.html as its last action.  A script
that raises exits before reaching its write, so a failed step has no effect. -/
def scriptEffect (script : String) (fs : FS) : FS :=
  if script = "scoring.py" then { fs with scoredSitesGeojson := true }
  else if script = "visualize.py" then { fs with sweetSpotMap := true }
  else fs

/-- The `for step in steps` loop of run_pipeline_background (app.py 155-170).
`o i` is the outcome of the i-th subprocess.  Per iteration the code sets the
step label, runs the subprocess, and either advances progress to the step's
target (success) or sets the error state and returns (failure).  The returned
list records the indices of the steps that were attempted. -/
def runSteps (o : Nat → StepResult) : Nat → List Step → Pipeline → FS →
    Pipeline × FS × List Nat
  | _, [], st, fs => (st, fs, [])
  | i, s :: rest, st, fs =>
    let st1 : Pipeline := { st with step := s.name }
    match o i with
    | .ok =>
      let st2 : Pipeline := { st1 with progress := s.progress }
      let r := runSteps o (i + 1) rest st2 (scriptEffect s.script fs)
      (r.1, r.2.1, i :: r.2.2)
    | .fail d =>
      ({ st1 with status := "error", step := "Failed: " ++ s.name, error := some d },
       fs, [i])

/-- run_pipeline_background of app.py (lines 82-179).  `params` is the optional
parameter override, `force` the force flag, `o` the outcomes of the subprocess
steps, `now` the timestamp taken on completion.  Returns the final pipeline
state, the final file system, and the indices of attempted steps.

The source returns from inside the loop on failure; since the loop body writes
status "error" exactly on failure and nothing else changes status, the early
return is reproduced by inspecting the status after the loop. -/
def run_pipeline_background (st : Pipeline) (fs : FS) (params : Option Params)
    (force : Bool) (o : Nat → StepResult) (now : String) :
    Pipeline × FS × List Nat :=
  if st.status = "running" then (st, fs, [])
  else if fs.scoredSitesGeojson && fs.sweetSpotMap && !force then
    ({ st with status := "done", step := "Outputs already exist", progress := 100,
               lastRun := some "Previous session" }, fs, [])
  else
    let p := params.getD st.params
    let st0 : Pipeline :=
      { st with params := p, status := "running", error := none, progress := 0 }
    let r := runSteps o 0 steps st0 fs
    if r.1.status = "error" then r
    else
      ({ r.1 with status := "done", step := "Pipeline complete",
                  lastRun := some now, hasRun := true },
       { r.2.1 with lastRunParams := some p }, r.2.2)

/-- Observed minimum of a scalar field (the min half of the GEE minMax
reducer over the region, scoring.py lines 91-99 and 121-129). -/
def fieldMin (vals : List ℚ) : ℚ := vals.foldl min (vals.headD 0)

/-- Observed maximum of a scalar field (the max half of the GEE minMax
reducer over the region). -/
def fieldMax (vals : List ℚ) : ℚ := vals.foldl max (vals.headD 0)

/-- Normalization as written in scoring.py lines 98-100 (get_lst_score) and
lines 128-130 (get_grid_proximity_score): pointwise
(value - observed_min) / (observed_max - observed_min) * 100, applied
unconditionally.  There is no branch for observed_max = observed_min; Earth
Engine's divide yields 0 on a zero divisor, as Rat division does. -/
def normalizeField (vals : List ℚ) : List ℚ :=
  vals.map (fun v => (v - fieldMin vals) / (fieldMax vals - fieldMin vals) * 100)

/-- The message of the ValueError raised by get_lst_score when the filtered
Landsat collection is empty (scoring.py line 82). -/
def noDataMessage : String := "No images found. Try widening date range or cloud cover."

/-- Input to the thermal source: the size of the filtered Landsat collection
(region, date window and cloud-cover filters applied), and the pixel values of
the masked median LST_Celsius image over the region. -/
structure LstInput where
  count : Nat
  lst : List ℚ
deriving DecidableEq, Repr

/-- get_lst_score of scoring.py (lines 55-102): raise when the filtered
collection is empty, otherwise normalize the masked LST field to 0-100. -/
def get_lst_score (inp : LstInput) : Except String (List ℚ) :=
  if inp.count = 0 then .error noDataMessage
  else .ok (normalizeField inp.lst)

/-- Outcome of the scoring subprocess step as the orchestrator sees it: an
uncaught exception in get_lst_score makes scoring.py exit nonzero, and app.py
raises RuntimeError on the captured stderr and stores str(e); the failure
detail is modelled as the exception message itself. -/
def scoringOutcome (inp : LstInput) : StepResult :=
  match get_lst_score inp with
  | .error m => .fail m
  | .ok _ => .ok

/-- compute_final_score of scoring.py (lines 179-192), with the WEIGHT_*
module globals as parameters.  The source chains pointwise image operations
lst.multiply(wl).add(grid.multiply(wg)).add(svi.multiply(ws)); each image is
the list of its pixel values, multiply maps, add zips. -/
def compute_final_score (wl wg ws : ℚ) (lst grid svi : List ℚ) : List ℚ :=
  List.zipWith (· + ·)
    (List.zipWith (· + ·) (lst.map (· * wl)) (grid.map (· * wg)))
    (svi.map (· * ws))

/-- Spec-side aggregator: the pointwise weighted sum w1*lst + w2*grid + w3*svi,
written as the spec describes it, to be compared with compute_final_score. -/
def combineSpec (wl wg ws : ℚ) (lst grid svi : List ℚ) : List ℚ :=
  List.zipWith₃ (fun l g s => wl * l + wg * g + ws * s) lst grid svi

/-- Input situation of get_svi_score (scoring.py lines 136-175): the data/svi_utah
directory is absent, present but unreadable (fiona/geopandas raises), or loaded
as a table of census tracts. `hasThemes` states whether the RPL_THEMES column
exists; `rows` are its values (one per tract). -/
inductive SviSource where
  | absent
  | unreadable
  | loaded (hasThemes : Bool) (rows : List ℚ)
deriving DecidableEq, Repr

/-- get_svi_score of scoring.py (lines 136-175).  `n` is the pixel count of the
region, so ee.Image(50).clip(STUDY_REGION) is the constant-50 field of length n.
All three paths return that constant image; the loaded path additionally
returns the processed tract table (RPL_THEMES filtered to nonnegative and
scaled by 100 when present, otherwise a constant 50 column). -/
def get_svi_score (src : SviSource) (n : Nat) : List ℚ × Option (List ℚ) :=
  match src with
  | .absent => (List.replicate n 50, none)
  | .unreadable => (List.replicate n 50, none)
  | .loaded hasThemes rows =>
    let gdf := if hasThemes then (rows.filter (fun v => 0 ≤ v)).map (· * 100)
               else rows.map (fun _ => 50)
    (List.replicate n 50, some gdf)

/-- One feature of outputs/scored_sites.geojson as read by load_sites:
point coordinates [lon, lat] and the GPS property. -/
structure Feature where
  lon : ℚ
  lat : ℚ
  gps : ℚ
deriving DecidableEq, Repr

/-- One site dict built by load_sites in app.py. -/
structure Site where
  rank : Nat
  name : String
  lat : ℚ
  lon : ℚ
  gps : ℚ
  county : String
  tierLabel : String
deriving DecidableEq, Repr

/-- Python round(x, d): rounding to d decimal places, modelled with the
integer rounding of Mathlib (the claims are insensitive to half-way ties). -/
def roundTo (d : Nat) (x : ℚ) : ℚ := (round (x * 10 ^ d) : ℤ) / 10 ^ d

/-- estimate_county of load_sites (app.py lines 323-327). -/
def estimate_county (lat : ℚ) (_lon : ℚ) : String :=
  if lat < 387/10 then "Beaver Co."
  else if lat < 40 then "Millard Co."
  else if lat < 408/10 then "Salt Lake Co."
  else "N. Utah"

/-- tier of load_sites (app.py lines 329-333). -/
def tierOf (gps : ℚ) : String :=
  if gps ≥ 85 then "Excellent"
  else if gps ≥ 70 then "Very Good"
  else if gps ≥ 60 then "Good"
  else "Moderate"

/-- Descending-gps order between two sites. -/
def gpsGE (a b : Site) : Prop := b.gps ≤ a.gps

/-- Insertion of a site into a list kept in descending gps order, placing the
new site in front of the first element whose gps is ≤ its own.  Folded from the
right this realizes a stable descending sort: Python's list.sort with
reverse=True keeps earlier equal elements first. -/
def insertDesc (s : Site) : List Site → List Site
  | [] => [s]
  | t :: ts => if t.gps ≤ s.gps then s :: t :: ts else t :: insertDesc s ts

/-- sites.sort(key=lambda x: x['gps'], reverse=True) of app.py line 352:
a stable sort by gps descending, realized as insertion sort. -/
def sortByGpsDesc (l : List Site) : List Site := l.foldr insertDesc []

/-- The rank-reassignment loop of app.py lines 353-354: ranks i, i+1, ... in
list order. -/
def assignRanks : Nat → List Site → List Site
  | _, [] => []
  | i, s :: ss => { s with rank := i } :: assignRanks (i + 1) ss

/-- The per-feature site dict construction of app.py lines 336-350. -/
def mkSite (i : Nat) (f : Feature) : Site :=
  let lat := roundTo 4 f.lat
  let lon := roundTo 4 f.lon
  { rank := i + 1
  , name := "Site R-" ++ toString (i + 1)
  , lat := lat
  , lon := lon
  , gps := roundTo 1 f.gps
  , county := estimate_county lat lon
  , tierLabel := tierOf f.gps }

/-- load_sites of app.py (lines 311-357).  `geojsonExists` is the existence
check on outputs/scored_sites.geojson, `features` its parsed features (in the
sampling order scoring.py wrote them), `num` the num_sites parameter.  Builds
the site dicts with ranks in file order, sorts by gps descending, reassigns
dense ranks 1.., and truncates to num. -/
def load_sites (geojsonExists : Bool) (features : List Feature) (num : Nat) :
    List Site :=
  if geojsonExists = false then []
  else
    let sites := (features.enum.map (fun p => mkSite p.1 p.2))
    let sorted := sortByGpsDesc sites
    (assignRanks 1 sorted).take num

/-- Fractional vegetation of compute_emissivity (lst_analysis.py line 80):
fv = ((ndvi - 0.2) / 0.3) ** 2. -/
def fractionalVegetation (ndvi : ℚ) : ℚ := ((ndvi - 2/10) / (3/10)) ^ 2

/-- compute_emissivity of lst_analysis.py (lines 68-90), per pixel on the NDVI
value.  The source starts from the constant image 0.979, overwrites with 0.986
where ndvi > 0.5, then overwrites with fv*0.119 + 0.977 where
0.2 ≤ ndvi ≤ 0.5; the where conditions are applied in that order. -/
def compute_emissivity (ndvi : ℚ) : ℚ :=
  let e1 : ℚ := if ndvi > 5/10 then 986/1000 else 979/1000
  if 2/10 ≤ ndvi ∧ ndvi ≤ 5/10 then
    fractionalVegetation ndvi * (119/1000) + 977/1000
  else e1

/-
Two concurrent run requests (claim C1).  A request executes three shared-state
accesses, in program order:
  pc 0 -- the /run route guard, app.py lines 276-277: read pipeline["status"];
          respond "already_running" and stop if it is "running", else respond
          "started" and spawn the background thread (which runs with force=True,
          so the reuse short-circuit is not taken);
  pc 1 -- the re-check at the top of run_pipeline_background, app.py lines
          95-96: read the status again; stop silently if "running";
  pc 2 -- the transition app.py line 112: write pipeline["status"] = "running"
          and proceed with the run (a state mutation).
The check (pc 0 / pc 1) and the write (pc 2) are separate accesses to the
shared dict, so threads may interleave between them.
-/

/-- Per-thread view: program counter (3 = finished), HTTP response, and whether
the thread mutated the shared state. -/
structure ReqThread where
  pc : Nat
  resp : Option String
  mutated : Bool
deriving DecidableEq, Repr

/-- Initial thread: about to execute the route guard. -/
def initThread : ReqThread := { pc := 0, resp := none, mutated := false }

/-- One atomic access of a request thread against the shared status. -/
def reqStep (status : String) (t : ReqThread) : String × ReqThread :=
  match t.pc with
  | 0 => if status = "running" then
           (status, { t with pc := 3, resp := some "already_running" })
         else
           (status, { t with pc := 1, resp := some "started" })
  | 1 => if status = "running" then (status, { t with pc := 3 })
         else (status, { t with pc := 2 })
  | 2 => ("running", { t with pc := 3, mutated := true })
  | _ => (status, t)

/-- Shared state plus the two request threads. -/
structure RaceState where
  status : String
  reqA : ReqThread
  reqB : ReqThread
deriving DecidableEq, Repr

/-- Both requests arrive while the pipeline is idle. -/
def initRace : RaceState :=
  { status := "idle", reqA := initThread, reqB := initThread }

/-- Execute one scheduled access: false schedules thread A, true thread B. -/
def raceStep (s : RaceState) (who : Bool) : RaceState :=
  if who then
    let r := reqStep s.status s.reqB
    { s with status := r.1, reqB := r.2 }
  else
    let r := reqStep s.status s.reqA
    { s with status := r.1, reqA := r.2 }

/-- Run a schedule of interleaved accesses of the two request threads. -/
def runSchedule (sched : List Bool) (s : RaceState) : RaceState :=
  sched.foldl raceStep s

/-
Helper lemmas.
-/

/-- A min-fold is bounded by its accumulator. -/
theorem foldl_min_le_acc (l : List ℚ) : ∀ a : ℚ, l.foldl min a ≤ a := by
  induction l with
  | nil => intro a; exact le_refl a
  | cons x xs ih =>
    intro a
    calc (x :: xs).foldl min a = xs.foldl min (min a x) := rfl
    _ ≤ min a x := ih (min a x)
    _ ≤ a := min_le_left a x

/-- A min-fold is bounded by every list element. -/
theorem foldl_min_le_mem (l : List ℚ) :
    ∀ (a v : ℚ), v ∈ l → l.foldl min a ≤ v := by
  induction l with
  | nil => intro a v hv; cases hv
  | cons x xs ih =>
    intro a v hv
    rcases List.mem_cons.mp hv with h | h
    · subst h
      calc (v :: xs).foldl min a = xs.foldl min (min a v) := rfl
      _ ≤ min a v := foldl_min_le_acc xs (min a v)
      _ ≤ v := min_le_right a v
    · exact ih (min a x) v h

/-- A max-fold dominates its accumulator. -/
theorem acc_le_foldl_max (l : List ℚ) : ∀ a : ℚ, a ≤ l.foldl max a := by
  induction l with
  | nil => intro a; exact le_refl a
  | cons x xs ih =>
    intro a
    calc a ≤ max a x := le_max_left a x
    _ ≤ xs.foldl max (max a x) := ih (max a x)
    _ = (x :: xs).foldl max a := rfl

/-- A max-fold dominates every list element. -/
theorem mem_le_foldl_max (l : List ℚ) :
    ∀ (a v : ℚ), v ∈ l → v ≤ l.foldl max a := by
  induction l with
  | nil => intro a v hv; cases hv
  | cons x xs ih =>
    intro a v hv
    rcases List.mem_cons.mp hv with h | h
    · subst h
      calc v ≤ max a v := le_max_right a v
      _ ≤ xs.foldl max (max a v) := acc_le_foldl_max xs (max a v)
      _ = (v :: xs).foldl max a := rfl
    · exact ih (max a x) v h

/-- The observed minimum is a lower bound of the field. -/
theorem fieldMin_le_mem (vals : List ℚ) (v : ℚ) (hv : v ∈ vals) :
    fieldMin vals ≤ v :=
  foldl_min_le_mem vals (vals.headD 0) v hv

/-- The observed maximum is an upper bound of the field. -/
theorem mem_le_fieldMax (vals : List ℚ) (v : ℚ) (hv : v ∈ vals) :
    v ≤ fieldMax vals :=
  mem_le_foldl_max vals (vals.headD 0) v hv

/-- Membership in an insertion. -/
theorem mem_insertDesc (s : Site) (l : List Site) (b : Site)
    (hb : b ∈ insertDesc s l) : b = s ∨ b ∈ l := by
  induction l with
  | nil =>
    simp only [insertDesc] at hb
    rcases List.mem_singleton.mp hb with h
    exact Or.inl h
  | cons t ts ih =>
    simp only [insertDesc] at hb
    by_cases hc : t.gps ≤ s.gps
    · rw [if_pos hc] at hb
      rcases List.mem_cons.mp hb with h | h
      · exact Or.inl h
      · exact Or.inr h
    · rw [if_neg hc] at hb
      rcases List.mem_cons.mp hb with h | h
      · exact Or.inr (h ▸ List.mem_cons_self t ts)
      · rcases ih h with h' | h'
        · exact Or.inl h'
        · exact Or.inr (List.mem_cons_of_mem t h')

/-- Insertion preserves the descending-gps pairwise invariant. -/
theorem pairwise_insertDesc (s : Site) (l : List Site)
    (h : List.Pairwise gpsGE l) : List.Pairwise gpsGE (insertDesc s l) := by
  induction l with
  | nil => simp [insertDesc, List.Pairwise]
  | cons t ts ih =>
    rcases List.pairwise_cons.mp h with ⟨ht, hts⟩
    simp only [insertDesc]
    by_cases hc : t.gps ≤ s.gps
    · rw [if_pos hc]
      refine List.pairwise_cons.mpr ⟨?_, h⟩
      intro b hb
      rcases List.mem_cons.mp hb with h' | h'
      · exact h' ▸ hc
      · exact le_trans (ht b h') hc
    · rw [if_neg hc]
      refine List.pairwise_cons.mpr ⟨?_, ih hts⟩
      intro b hb
      rcases mem_insertDesc s ts b hb with h' | h'
      · exact h' ▸ le_of_not_le hc
      · exact ht b h'

/-- The stable descending sort produces a descending-gps list. -/
theorem pairwise_sortByGpsDesc (l : List Site) :
    List.Pairwise gpsGE (sortByGpsDesc l) := by
  induction l with
  | nil => simp [sortByGpsDesc, List.Pairwise]
  | cons x xs ih =>
    have : sortByGpsDesc (x :: xs) = insertDesc x (sortByGpsDesc xs) := rfl
    rw [this]
    exact pairwise_insertDesc x (sortByGpsDesc xs) ih

/-- Rank reassignment does not touch the gps scores. -/
theorem gps_map_assignRanks (l : List Site) :
    ∀ i, (assignRanks i l).map (fun s => s.gps) = l.map (fun s => s.gps) := by
  induction l with
  | nil => intro i; rfl
  | cons x xs ih =>
    intro i
    simp only [assignRanks, List.map_cons, ih (i + 1)]

/-- Rank reassignment keeps the list length. -/
theorem length_assignRanks (l : List Site) :
    ∀ i, (assignRanks i l).length = l.length := by
  induction l with
  | nil => intro i; rfl
  | cons x xs ih =>
    intro i
    simp only [assignRanks, List.length_cons, ih (i + 1)]

/-- The ranks of a truncated reassigned list are consecutive from the start
index. -/
theorem rank_take_assignRanks (l : List Site) :
    ∀ (i m : Nat),
      ((assignRanks i l).take m).map (fun s => s.rank) =
        List.range' i (min m l.length) := by
  induction l with
  | nil =>
    intro i m
    simp [assignRanks]
  | cons x xs ih =>
    intro i m
    cases m with
    | zero => simp
    | succ m' =>
      simp only [assignRanks, List.take_succ_cons, List.map_cons, ih (i + 1) m',
        List.length_cons, Nat.succ_min_succ, List.range'_succ]

/-- The chained multiply/add image operations of compute_final_score agree
pointwise with the weighted sum the spec describes. -/
theorem final_score_pointwise (wl wg ws : ℚ) (lst : List ℚ) :
    ∀ grid svi : List ℚ,
      compute_final_score wl wg ws lst grid svi =
        combineSpec wl wg ws lst grid svi := by
  induction lst with
  | nil =>
    intro grid svi
    cases grid <;> cases svi <;> simp [compute_final_score, combineSpec, List.zipWith₃]
  | cons l ls ih =>
    intro grid svi
    cases grid with
    | nil => cases svi <;> simp [compute_final_score, combineSpec, List.zipWith₃]
    | cons g gs =>
      cases svi with
      | nil => simp [compute_final_score, combineSpec, List.zipWith₃]
      | cons s ss =>
        have ihe := ih gs ss
        simp only [compute_final_score, combineSpec, List.map_cons,
          List.zipWith_cons_cons, List.zipWith₃] at ihe ⊢
        refine congrArg₂ (· :: ·) (by ring) ihe

/-- Zipping against a constant-50 third field makes the third contribution the
constant ws * 50 at every point. -/
theorem zipWith3_replicate50 (wl wg ws : ℚ) (lst : List ℚ) :
    ∀ (grid : List ℚ) (n : Nat),
      List.zipWith₃ (fun l g s => wl * l + wg * g + ws * s) lst grid (List.replicate n 50) =
      List.zipWith₃ (fun l g _ => wl * l + wg * g + ws * 50) lst grid (List.replicate n 50) := by
  induction lst with
  | nil => intro grid n; cases grid <;> cases n <;> simp [List.zipWith₃]
  | cons l ls ih =>
    intro grid n
    cases grid with
    | nil => cases n <;> simp [List.zipWith₃]
    | cons g gs =>
      cases n with
      | zero => simp [List.zipWith₃]
      | succ n' =>
        simp only [List.replicate, List.zipWith₃]
        exact congrArg (_ :: ·) (ih gs n')

/-
Claim theorems.
-/

/-- Claim C1, evaluation at the failing interleaving.  The run guard of app.py
is a plain read of pipeline["status"] (route, lines 276-277, and background
re-check, lines 95-96) separated from the write pipeline["status"] = "running"
(line 112), not an atomic check-and-set.  From status "idle", under the
interleaving A-route-check, B-route-check, A-bg-check, B-bg-check, A-write,
B-write of two run requests, both requests pass every guard: both respond
"started", neither observes "already_running", and both mutate the shared
state — contradicting the claim that exactly one request transitions the state
and the other observes "already_running" with no mutation. -/
theorem C1_race_interleaving_both_start :
    (runSchedule [false, true, false, true, false, true] initRace).reqA.resp =
      some "started" ∧
    (runSchedule [false, true, false, true, false, true] initRace).reqB.resp =
      some "started" ∧
    (runSchedule [false, true, false, true, false, true] initRace).reqA.mutated = true ∧
    (runSchedule [false, true, false, true, false, true] initRace).reqB.mutated = true ∧
    (runSchedule [false, true, false, true, false, true] initRace).status = "running" := by
  decide

/-- The guard logic itself is sound for non-overlapping requests: when request
A finishes all its accesses before request B starts, B observes
"already_running" and performs no mutation.  It is the interleaving of the
separate check and write, not the guard condition, that breaks the claim. -/
theorem race_sequential_guard_rejects :
    (runSchedule [false, false, false, true] initRace).reqB.resp =
      some "already_running" ∧
    (runSchedule [false, false, false, true] initRace).reqB.mutated = false := by
  decide

/-- Claim C2, counterexample.  On the degenerate field [3, 3] the observed
minimum equals the observed maximum, and normalization (scoring.py lines
98-100 / 128-130) does not return the constant 50: the formula is applied
unconditionally with a zero divisor, yielding the constant 0 field under the
Earth Engine divide-by-zero convention.  There is no guarded branch. -/
theorem C2_degenerate_counterexample :
    fieldMin [(3 : ℚ), 3] = fieldMax [(3 : ℚ), 3] ∧
    normalizeField [(3 : ℚ), 3] = [0, 0] ∧
    normalizeField [(3 : ℚ), 3] ≠ [50, 50] := by
  norm_num [normalizeField, fieldMin, fieldMax]

/-- Claim C2, amended.  Normalization applies
(value - observed_min) / (observed_max - observed_min) * 100 pointwise with no
degenerate-range guard: on a zero-range field the zero divisor makes the
output the constant 0 field (not 50), and on a non-degenerate field every
output value lies in [0, 100]. -/
theorem C2_normalization_amended (vals : List ℚ) :
    (fieldMax vals - fieldMin vals = 0 → normalizeField vals = vals.map (fun _ => 0)) ∧
    normalizeField vals =
      vals.map (fun v => (v - fieldMin vals) / (fieldMax vals - fieldMin vals) * 100) ∧
    (fieldMin vals < fieldMax vals → ∀ x ∈ normalizeField vals, 0 ≤ x ∧ x ≤ 100) := by
  refine ⟨?_, rfl, ?_⟩
  · intro h
    simp [normalizeField, h]
  · intro h x hx
    rcases List.mem_map.mp hx with ⟨v, hv, rfl⟩
    have hpos : 0 < fieldMax vals - fieldMin vals := sub_pos.mpr h
    have h1 : fieldMin vals ≤ v := fieldMin_le_mem vals v hv
    have h2 : v ≤ fieldMax vals := mem_le_fieldMax vals v hv
    constructor
    · exact mul_nonneg (div_nonneg (sub_nonneg.mpr h1) (le_of_lt hpos)) (by norm_num)
    · have hdiv : (v - fieldMin vals) / (fieldMax vals - fieldMin vals) ≤ 1 :=
        (div_le_one hpos).mpr (by linarith)
      calc (v - fieldMin vals) / (fieldMax vals - fieldMin vals) * 100 ≤ 1 * 100 :=
        mul_le_mul_of_nonneg_right hdiv (by norm_num)
      _ = 100 := one_mul 100

/-- Witness for C2_normalization_amended: the degenerate field [3, 3]
normalizes to the constant 0 field, and the non-degenerate field [0, 5, 10]
normalizes into [0, 100]. -/
theorem C2_normalization_amended_witness :
    normalizeField [(3 : ℚ), 3] = [0, 0] ∧
    ∀ x ∈ normalizeField [(0 : ℚ), 5, 10], 0 ≤ x ∧ x ≤ 100 := by
  constructor
  · have h := (C2_normalization_amended [(3 : ℚ), 3]).1 (by norm_num [fieldMin, fieldMax])
    simpa using h
  · exact (C2_normalization_amended [(0 : ℚ), 5, 10]).2.2 (by norm_num [fieldMin, fieldMax])

/-- Claim C3.  In any run that actually starts (state not "running", no reuse
short-circuit), a failing step puts the pipeline into status "error" with the
step's label and the failure detail recorded, leaves progress at its
pre-failure value (0 when the first step fails, 60 when the second fails —
never the failing step's target), leaves the file system untouched by the
failing step, and attempts no later step (the attempted-step trace ends at the
failing index). -/
theorem C3_step_failure_halts (st : Pipeline) (fs : FS) (params : Option Params)
    (force : Bool) (o : Nat → StepResult) (now d : String)
    (hrun : st.status ≠ "running")
    (hsc : (fs.scoredSitesGeojson && fs.sweetSpotMap && !force) = false) :
    (o 0 = .fail d →
      run_pipeline_background st fs params force o now =
        ({ st with params := params.getD st.params, status := "error",
                   step := "Failed: Fetching satellite data & scoring sites",
                   error := some d, progress := 0 }, fs, [0])) ∧
    (o 0 = .ok → o 1 = .fail d →
      run_pipeline_background st fs params force o now =
        ({ st with params := params.getD st.params, status := "error",
                   step := "Failed: Generating interactive map",
                   error := some d, progress := 60 },
         { fs with scoredSitesGeojson := true }, [0, 1])) := by
  constructor
  · intro h0
    simp [run_pipeline_background, if_neg hrun, hsc, steps, runSteps, h0, scriptEffect]
  · intro h0 h1
    simp [run_pipeline_background, if_neg hrun, hsc, steps, runSteps, h0, h1, scriptEffect]

/-- Witness for C3_step_failure_halts: the first step failing with "boom" from
the initial state ends in status "error", error "boom", progress 0, and only
step 0 attempted. -/
theorem C3_step_failure_halts_witness :
    run_pipeline_background initialPipeline ⟨false, false, none⟩ none true
        (fun _ => .fail "boom") "t" =
      ({ initialPipeline with params := DEFAULT_PARAMS, status := "error",
                              step := "Failed: Fetching satellite data & scoring sites",
                              error := some "boom", progress := 0 },
       ⟨false, false, none⟩, [0]) :=
  (C3_step_failure_halts initialPipeline ⟨false, false, none⟩ none true
    (fun _ => .fail "boom") "t" "boom" (by decide) (by decide)).1 rfl

/-- Claim C4.  compute_final_score is exactly the pointwise weighted sum
wl*lst + wg*grid + ws*svi with no clamping and no renormalization; with
weights (0.5, 0.3, 0.2) and point values (100, 0, 0) the composite is 50, and
with weights (1, 1, 1) — not summing to 1 — the composite exceeds 100. -/
theorem C4_weighted_sum_exact :
    (∀ (wl wg ws : ℚ) (lst grid svi : List ℚ),
      compute_final_score wl wg ws lst grid svi = combineSpec wl wg ws lst grid svi) ∧
    compute_final_score (5/10) (3/10) (2/10) [100] [0] [0] = [50] ∧
    compute_final_score 1 1 1 [100] [100] [100] = [300] := by
  refine ⟨fun wl wg ws lst grid svi => final_score_pointwise wl wg ws lst grid svi, ?_, ?_⟩
  · norm_num [compute_final_score]
  · norm_num [compute_final_score]

/-- Claim C5.  The candidate list served by load_sites is sorted by gps
descending, its ranks are exactly 1..k in list order (dense, no gaps or
repeats, reassigned after sorting), and k never exceeds the requested count. -/
theorem C5_sorted_dense_ranks (ex : Bool) (features : List Feature) (num : Nat) :
    List.Pairwise gpsGE (load_sites ex features num) ∧
    (load_sites ex features num).map (fun s => s.rank) =
      List.range' 1 (load_sites ex features num).length ∧
    (load_sites ex features num).length ≤ num := by
  cases ex with
  | false => simp [load_sites]
  | true =>
    have hload : load_sites true features num =
        (assignRanks 1 (sortByGpsDesc (features.enum.map (fun p => mkSite p.1 p.2)))).take num := by
      simp [load_sites]
    rw [hload]
    refine ⟨?_, ?_, ?_⟩
    · refine List.Pairwise.sublist (List.take_sublist num _) ?_
      have hs := pairwise_sortByGpsDesc (features.enum.map (fun p => mkSite p.1 p.2))
      have hmap : List.Pairwise (fun x y : ℚ => y ≤ x)
          ((assignRanks 1 (sortByGpsDesc (features.enum.map (fun p => mkSite p.1 p.2)))).map
            (fun s => s.gps)) := by
        rw [gps_map_assignRanks]
        exact List.pairwise_map.mpr hs
      rw [List.pairwise_map] at hmap
      simpa [gpsGE] using hmap
    · rw [rank_take_assignRanks, List.length_take, length_assignRanks]
    · rw [List.length_take]
      exact min_le_left num _

/-- Claim C6.  A run request in state "idle", "done" or "error", with both
output files present and no force flag, short-circuits to status "done" with
progress 100 and the reused-outputs label, leaving the file system untouched
and attempting no step at all — in particular invoking no signal source. -/
theorem C6_reuse_short_circuit (st : Pipeline) (fs : FS) (params : Option Params)
    (o : Nat → StepResult) (now : String)
    (hstate : st.status = "idle" ∨ st.status = "done" ∨ st.status = "error")
    (hgeo : fs.scoredSitesGeojson = true) (hmap : fs.sweetSpotMap = true) :
    run_pipeline_background st fs params false o now =
      ({ st with status := "done", step := "Outputs already exist",
                 progress := 100, lastRun := some "Previous session" }, fs, []) := by
  have hrun : st.status ≠ "running" := by
    rcases hstate with h | h | h <;> rw [h] <;> decide
  simp [run_pipeline_background, if_neg hrun, hgeo, hmap]

/-- Witness for C6_reuse_short_circuit at the initial (idle) state with both
outputs present. -/
theorem C6_reuse_short_circuit_witness :
    run_pipeline_background initialPipeline ⟨true, true, none⟩ none false
        (fun _ => .ok) "t" =
      ({ initialPipeline with status := "done", step := "Outputs already exist",
                              progress := 100, lastRun := some "Previous session" },
       ⟨true, true, none⟩, []) :=
  C6_reuse_short_circuit initialPipeline ⟨true, true, none⟩ none
    (fun _ => .ok) "t" (Or.inl rfl) rfl rfl

/-- Claim C7.  When the thermal source finds zero input observations,
get_lst_score fails with the no-data error instead of substituting a default;
the failure propagates through the scoring step, the orchestrator records the
message in the error field and the failing step's label, transitions to
status "error", and attempts nothing further. -/
theorem C7_no_data_aborts (st : Pipeline) (fs : FS) (params : Option Params)
    (force : Bool) (o : Nat → StepResult) (now : String) (inp : LstInput)
    (hrun : st.status ≠ "running")
    (hsc : (fs.scoredSitesGeojson && fs.sweetSpotMap && !force) = false)
    (hcount : inp.count = 0)
    (ho : o 0 = scoringOutcome inp) :
    get_lst_score inp = .error noDataMessage ∧
    run_pipeline_background st fs params force o now =
      ({ st with params := params.getD st.params, status := "error",
                 step := "Failed: Fetching satellite data & scoring sites",
                 error := some noDataMessage, progress := 0 }, fs, [0]) := by
  have hlst : get_lst_score inp = .error noDataMessage := by
    simp [get_lst_score, hcount]
  have h0 : o 0 = .fail noDataMessage := by
    rw [ho]; simp [scoringOutcome, hlst]
  exact ⟨hlst, by simp [run_pipeline_background, if_neg hrun, hsc, steps, runSteps, h0]⟩

/-- Witness for C7_no_data_aborts: a thermal input with zero observations
aborts the run from the initial state with the no-data message recorded. -/
theorem C7_no_data_aborts_witness :
    get_lst_score ⟨0, []⟩ = .error noDataMessage ∧
    run_pipeline_background initialPipeline ⟨false, false, none⟩ none true
        (fun _ => scoringOutcome ⟨0, []⟩) "t" =
      ({ initialPipeline with params := DEFAULT_PARAMS, status := "error",
                              step := "Failed: Fetching satellite data & scoring sites",
                              error := some noDataMessage, progress := 0 },
       ⟨false, false, none⟩, [0]) :=
  C7_no_data_aborts initialPipeline ⟨false, false, none⟩ none true
    (fun _ => scoringOutcome ⟨0, []⟩) "t" ⟨0, []⟩ (by decide) (by decide) rfl rfl

/-- Claim C8.  The last-run-parameters file is written exactly on a fully
successful run, and then holds the exact parameter snapshot used; a run in
which any step fails leaves the file unchanged, and existing outputs
(candidate list, map) are never deleted by any run. -/
theorem C8_params_persist_on_success (st : Pipeline) (fs : FS)
    (params : Option Params) (force : Bool) (o : Nat → StepResult) (now : String)
    (hrun : st.status ≠ "running")
    (hsc : (fs.scoredSitesGeojson && fs.sweetSpotMap && !force) = false) :
    (o 0 = .ok → o 1 = .ok →
      (run_pipeline_background st fs params force o now).2.1.lastRunParams =
        some (params.getD st.params)) ∧
    (∀ d, (o 0 = .fail d ∨ (o 0 = .ok ∧ o 1 = .fail d)) →
      (run_pipeline_background st fs params force o now).2.1.lastRunParams =
        fs.lastRunParams) ∧
    (fs.scoredSitesGeojson = true →
      (run_pipeline_background st fs params force o now).2.1.scoredSitesGeojson = true) ∧
    (fs.sweetSpotMap = true →
      (run_pipeline_background st fs params force o now).2.1.sweetSpotMap = true) := by
  refine ⟨?_, ?_, ?_, ?_⟩
  · intro h0 h1
    simp [run_pipeline_background, if_neg hrun, hsc, steps, runSteps, h0, h1, scriptEffect]
  · rintro d (h0 | ⟨h0, h1⟩)
    · simp [run_pipeline_background, if_neg hrun, hsc, steps, runSteps, h0]
    · simp [run_pipeline_background, if_neg hrun, hsc, steps, runSteps, h0, h1, scriptEffect]
  · intro hg
    cases h0 : o 0 <;> cases h1 : o 1 <;>
      simp [run_pipeline_background, if_neg hrun, hsc, steps, runSteps, h0, h1,
        scriptEffect, hg] <;>
      split_ifs <;> simp [hg]
  · intro hm
    cases h0 : o 0 <;> cases h1 : o 1 <;>
      simp [run_pipeline_background, if_neg hrun, hsc, steps, runSteps, h0, h1,
        scriptEffect, hm] <;>
      split_ifs <;> simp [hm]

/-- Witness for C8_params_persist_on_success: a successful run records the
snapshot it used; a failed run leaves a previously recorded snapshot and the
existing outputs in place. -/
theorem C8_params_persist_on_success_witness :
    (run_pipeline_background initialPipeline ⟨false, false, none⟩ none true
        (fun _ => .ok) "t").2.1.lastRunParams = some DEFAULT_PARAMS ∧
    (run_pipeline_background initialPipeline ⟨true, true, some DEFAULT_PARAMS⟩ none true
        (fun _ => .fail "boom") "t").2.1.lastRunParams = some DEFAULT_PARAMS ∧
    (run_pipeline_background initialPipeline ⟨true, true, some DEFAULT_PARAMS⟩ none true
        (fun _ => .fail "boom") "t").2.1.scoredSitesGeojson = true :=
  ⟨(C8_params_persist_on_success initialPipeline ⟨false, false, none⟩ none true
      (fun _ => .ok) "t" (by decide) (by decide)).1 rfl rfl,
   (C8_params_persist_on_success initialPipeline ⟨true, true, some DEFAULT_PARAMS⟩ none true
      (fun _ => .fail "boom") "t" (by decide) (by decide)).2.1 "boom" (Or.inl rfl),
   (C8_params_persist_on_success initialPipeline ⟨true, true, some DEFAULT_PARAMS⟩ none true
      (fun _ => .fail "boom") "t" (by decide) (by decide)).2.2.1 rfl⟩

/-- Claim C9, counterexample.  On the intermediate NDVI range the emissivity of
compute_emissivity is not linear in NDVI: 0.35 is the midpoint of [0.2, 0.5],
and an affine function would satisfy 2*e(0.35) = e(0.2) + e(0.5), but
2 * 1.00675 = 2.0135 ≠ 2.073 = 0.977 + 1.096.  The middle branch is affine in
the squared fractional vegetation, hence quadratic in NDVI. -/
theorem C9_emissivity_not_linear :
    compute_emissivity (2/10) = 977/1000 ∧
    compute_emissivity (5/10) = 1096/1000 ∧
    compute_emissivity (35/100) = 100675/100000 ∧
    2 * compute_emissivity (35/100) ≠ compute_emissivity (2/10) + compute_emissivity (5/10) := by
  norm_num [compute_emissivity, fractionalVegetation]

/-- Claim C9, amended.  Per-pixel emissivity follows a three-branch piecewise
rule on NDVI: the bare-soil constant 0.979 below 0.2, the vegetated constant
0.986 above 0.5, and in between a value affine in the squared fractional
vegetation ((NDVI - 0.2) / 0.3)^2 — quadratic, not linear, in NDVI. -/
theorem C9_emissivity_piecewise (ndvi : ℚ) :
    (ndvi < 2/10 → compute_emissivity ndvi = 979/1000) ∧
    (5/10 < ndvi → compute_emissivity ndvi = 986/1000) ∧
    (2/10 ≤ ndvi → ndvi ≤ 5/10 →
      compute_emissivity ndvi =
        ((ndvi - 2/10) / (3/10)) ^ 2 * (119/1000) + 977/1000) := by
  refine ⟨fun h => ?_, fun h => ?_, fun h1 h2 => ?_⟩
  · have hA : ¬ ((2:ℚ)/10 ≤ ndvi ∧ ndvi ≤ 5/10) := fun hc => absurd hc.1 (by linarith)
    have hB : ¬ ((5:ℚ)/10 < ndvi) := by linarith
    simp only [compute_emissivity]
    rw [if_neg hA, if_neg hB]
  · have hA : ¬ ((2:ℚ)/10 ≤ ndvi ∧ ndvi ≤ 5/10) := fun hc => absurd hc.2 (by linarith)
    simp only [compute_emissivity]
    rw [if_neg hA, if_pos h]
  · simp only [compute_emissivity, fractionalVegetation]
    rw [if_pos (⟨h1, h2⟩ : (2:ℚ)/10 ≤ ndvi ∧ ndvi ≤ 5/10)]

/-- Witness for C9_emissivity_piecewise at representatives of all three
branches. -/
theorem C9_emissivity_piecewise_witness :
    compute_emissivity (1/10) = 979/1000 ∧
    compute_emissivity (6/10) = 986/1000 ∧
    compute_emissivity (35/100) =
      (((35:ℚ)/100 - 2/10) / (3/10)) ^ 2 * (119/1000) + 977/1000 :=
  ⟨(C9_emissivity_piecewise (1/10)).1 (by norm_num),
   (C9_emissivity_piecewise (6/10)).2.1 (by norm_num),
   (C9_emissivity_piecewise (35/100)).2.2 (by norm_num) (by norm_num)⟩

/-- Claim C10.  Whatever the state of the vulnerability dataset — absent,
unreadable, or loaded — get_svi_score returns the constant neutral field of
value 50 over the region, so the composite's equity contribution is the
constant ws * 50 at every point and never depends on the loaded values. -/
theorem C10_svi_constant_neutral (src : SviSource) (n : Nat) (wl wg ws : ℚ)
    (lst grid : List ℚ) :
    (get_svi_score src n).1 = List.replicate n 50 ∧
    compute_final_score wl wg ws lst grid (get_svi_score src n).1 =
      List.zipWith₃ (fun l g _ => wl * l + wg * g + ws * 50) lst grid
        (List.replicate n 50) := by
  have h1 : (get_svi_score src n).1 = List.replicate n 50 := by
    cases src <;> rfl
  refine ⟨h1, ?_⟩
  rw [h1, final_score_pointwise]
  simp only [combineSpec]
  exact zipWith3_replicate50 wl wg ws lst grid n

end GeoPulse
